import Mathlib

/-!
Invoicey — shallow embedding of the invoice domain logic.

This file embeds the core business logic of the Invoicey repository
(backend services `invoiceService`, `clientService`, `metricsService`,
`invoiceNumberGenerator`, `recentItemsService`, and the Supabase-backed
`invoiceService` variant) as executable Lean definitions, and proves the
behavioural properties stated about them.

Modelling conventions:
* JavaScript numbers are modelled as exact rationals `ℚ`; the arithmetic the
  services perform (sums of products, `x * rate / 100`, `Math.round(x*100)/100`)
  is carried out exactly.
* `Math.round` rounds to the nearest integer with ties toward `+∞`
  (ECMAScript: "if two integral values are equally close, the larger is
  chosen"), i.e. `⌊x + 1/2⌋`.
* Dates and identifiers are strings; JS string `<` is lexicographic, matching
  Lean's `String` order on ASCII dates.
* Side-effecting identifier generation (`Date.now()`-based ids) is modelled by
  passing the generated identifiers as parameters.
* `localStorage`/Supabase persistence is modelled by explicit state passing:
  an operation receives the stored collections and returns the collections it
  persists; a thrown `Error` is an `Except.error`.
-/

namespace Invoicey

/-- JS `Math.round`: nearest integer, ties toward `+∞`. -/
def jsRound (q : ℚ) : ℤ := ⌊q + 1/2⌋

/-- The source's 2-decimal rounding idiom `Math.round(x * 100) / 100`. -/
def round2 (q : ℚ) : ℚ := (jsRound (q * 100) : ℚ) / 100

/-- Modelled from the spec's words ("round-half-away-from-zero at the cent
boundary"): rounding to the nearest integer with ties away from zero.  This is
*not* translated from the source; it exists only to compare the spec's claimed
rounding rule with the code's `Math.round`. -/
def roundHalfAwayFromZero (x : ℚ) : ℤ := if 0 ≤ x then ⌊x + 1/2⌋ else -⌊-x + 1/2⌋

/-- The spec's claimed 2-decimal rounding: half away from zero at the cent
boundary. Companion to `roundHalfAwayFromZero`; not from the source. -/
def round2AwayFromZero (q : ℚ) : ℚ := (roundHalfAwayFromZero (q * 100) : ℚ) / 100

/-! ## Data model (backend `src/types` / `mockData`) -/

/-- The `Client` from the backend data model. -/
structure Client where
  id : String
  name : String
  email : String
  company : Option String
  phone : Option String
  address : Option String
  createdAt : String
deriving DecidableEq, Repr

/-- The `LineItem`: one billable entry, with the cached derived `amount`. -/
structure LineItem where
  id : String
  description : String
  quantity : ℚ
  rate : ℚ
  amount : ℚ
deriving DecidableEq, Repr

/-- The `InvoiceStatus`: the four-state lifecycle. -/
inductive InvoiceStatus where
  | draft
  | sent
  | paid
  | overdue
deriving DecidableEq, Repr

/-- The `Invoice` from the backend data model. -/
structure Invoice where
  id : String
  invoiceNumber : String
  clientId : String
  client : Client
  status : InvoiceStatus
  issueDate : String
  dueDate : String
  lineItems : List LineItem
  subtotal : ℚ
  tax : ℚ
  total : ℚ
  notes : Option String
  createdAt : String
deriving DecidableEq, Repr

/-- The `LineItemInput`: caller-supplied line item (no id, no cached amount). -/
structure LineItemInput where
  description : String
  quantity : ℚ
  rate : ℚ
deriving DecidableEq, Repr

/-- The `InvoiceInput`: caller-supplied invoice fields. `status` is optional
(JS `undefined` = `none`). -/
structure InvoiceInput where
  clientId : String
  issueDate : String
  dueDate : String
  lineItems : List LineItemInput
  notes : Option String
  status : Option InvoiceStatus
deriving DecidableEq, Repr

/-- The `ClientInput`: caller-supplied client fields; `company`/`phone`/`address`
are optional. -/
structure ClientInput where
  name : String
  email : String
  company : Option String
  phone : Option String
  address : Option String
deriving DecidableEq, Repr

/-- The `ValidationResult`: the structured validation value `{valid, errors}`.
The `errors` record is modelled as an association list of field/message
pairs in insertion order. -/
structure ValidationResult where
  valid : Bool
  errors : List (String × String)
deriving DecidableEq, Repr

/-- The record returned by `calculateTotals`. -/
structure Totals where
  subtotal : ℚ
  tax : ℚ
  total : ℚ
deriving DecidableEq, Repr

/-! ## `invoiceService.calculateTotals` (backend) -/

/-- The `calculateTotals(lineItems, taxRate)` from
`backend/src/services/invoiceService.ts`: raw sum of `quantity * rate`,
`tax = subtotal * (taxRate/100)`, `total = subtotal + tax`, each of the three
results rounded independently with `Math.round(x*100)/100`. -/
def calculateTotals (lineItems : List LineItemInput) (taxRate : ℚ) : Totals :=
  let subtotal := lineItems.foldl (fun sum item => sum + item.quantity * item.rate) 0
  let tax := subtotal * (taxRate / 100)
  let total := subtotal + tax
  { subtotal := round2 subtotal
    tax := round2 tax
    total := round2 total }

/-- The JS default parameter `taxRate: number = 10` of the backend
`calculateTotals`: the call `calculateTotals(input.lineItems)` used by
`create`/`update` computes with tax rate 10. -/
def calculateTotalsDefault (lineItems : List LineItemInput) : Totals :=
  calculateTotals lineItems 10

/-! ## Validation -/

/-- Whether a character is trimmed by JS `String.prototype.trim` (the ASCII
whitespace characters; the services only ever trim user-entered text). -/
def isJsWhitespace (c : Char) : Bool :=
  c = ' ' ∨ c = '\t' ∨ c = '\n' ∨ c = '\r' ∨ c = '\x0b' ∨ c = '\x0c'

/-- JS `String.prototype.trim()`: strip leading and trailing whitespace.
(Defined by structural recursion so that concrete instances evaluate.) -/
def jsTrim (s : String) : String :=
  String.mk (((s.data.dropWhile isJsWhitespace).reverse.dropWhile isJsWhitespace).reverse)

/-- The `invoiceService.validate(input)`: `clientId` must be non-blank, and the
line items must be non-empty with at least one non-blank description. -/
def invoiceValidate (input : InvoiceInput) : ValidationResult :=
  let errors :=
    (if jsTrim input.clientId = "" then [("clientId", "Please select a client")] else [])
    ++
    (if input.lineItems.isEmpty then
      [("lineItems", "At least one line item is required")]
    else if input.lineItems.any (fun item => jsTrim item.description ≠ "") then
      []
    else
      [("lineItems", "At least one line item must have a description")])
  { valid := errors.isEmpty, errors := errors }

/-- The `clientService.validate(input)`: `name` and `email` must be non-blank. -/
def clientValidate (input : ClientInput) : ValidationResult :=
  let errors :=
    (if jsTrim input.name = "" then [("name", "Name is required")] else [])
    ++
    (if jsTrim input.email = "" then [("email", "Email is required")] else [])
  { valid := errors.isEmpty, errors := errors }

/-! ## Line item construction -/

/-- The `createLineItem(input)`: fresh id, caller fields, and the derived cached
`amount = Math.round(quantity * rate * 100) / 100`.  The generated id for the
item at position `n` is supplied by `itemIds n`. -/
def createLineItem (itemIds : Nat → String) (p : Nat × LineItemInput) : LineItem :=
  { id := itemIds p.1
    description := p.2.description
    quantity := p.2.quantity
    rate := p.2.rate
    amount := round2 (p.2.quantity * p.2.rate) }

/-- The `input.lineItems.map(createLineItem)`: each input item is turned into a
stored `LineItem` with a freshly generated id. -/
def buildLineItems (itemIds : Nat → String) (items : List LineItemInput) : List LineItem :=
  items.enum.map (createLineItem itemIds)

/-! ## Invoice number generator (`invoiceNumberGenerator`) -/

/-- The persisted counter `{ year, sequence }`. -/
structure CounterData where
  year : Nat
  sequence : Nat
deriving DecidableEq, Repr

/-- The `getNextSequence()`: 1 when no counter is stored or the stored year
differs from the current year, stored `sequence + 1` otherwise. -/
def getNextSequence (currentYear : Nat) (counterData : Option CounterData) : Nat :=
  match counterData with
  | none => 1
  | some c => if c.year ≠ currentYear then 1 else c.sequence + 1

/-- JS `String.prototype.padStart(3, '0')`: prepend zeros until the string is
at least 3 characters long. -/
def padStart3 (s : String) : String :=
  if s.length ≥ 3 then s else (String.mk (List.replicate (3 - s.length) '0')) ++ s

/-- The `generate()`: compute the next sequence, persist the new
`{ year: currentYear, sequence }`, and return `INV-<year>-<padded sequence>`.
The returned pair is (invoice number, persisted counter). -/
def generate (currentYear : Nat) (st : Option CounterData) : String × CounterData :=
  let sequence := getNextSequence currentYear st
  ("INV-" ++ toString currentYear ++ "-" ++ padStart3 (toString sequence),
   { year := currentYear, sequence := sequence })

/-! ## Status updates (`markAsPaid` / `markAsSent`) -/

/-- The shared shape of `markAsPaid`/`markAsSent`: find the first invoice with
the given id (`findIndex`), overwrite exactly its `status` field, and persist
the updated collection; a missing id throws.  Returns (new collection,
updated invoice). -/
def markWithStatus (newStatus : InvoiceStatus) (id : String) :
    List Invoice → Except String (List Invoice × Invoice)
  | [] => .error ("Invoice with ID " ++ id ++ " not found")
  | inv :: rest =>
    if inv.id = id then
      let updated := { inv with status := newStatus }
      .ok (updated :: rest, updated)
    else
      match markWithStatus newStatus id rest with
      | .error e => .error e
      | .ok (l, u) => .ok (inv :: l, u)

/-- The `invoiceService.markAsPaid(id)`. -/
def markAsPaidL (id : String) (invoices : List Invoice) :
    Except String (List Invoice × Invoice) :=
  markWithStatus .paid id invoices

/-- The `invoiceService.markAsSent(id)`. -/
def markAsSentL (id : String) (invoices : List Invoice) :
    Except String (List Invoice × Invoice) :=
  markWithStatus .sent id invoices

/-! ## `checkOverdue` -/

/-- The per-invoice rule of `checkOverdue`: a `sent` invoice whose `dueDate`
is lexically before today becomes `overdue`; everything else passes through. -/
def overdueStep (today : String) (invoice : Invoice) : Invoice :=
  if invoice.status = .sent ∧ invoice.dueDate < today then
    { invoice with status := .overdue }
  else
    invoice

/-- The `invoiceService.checkOverdue(invoices)`: batch scan of the collection.
(The source persists the mapped collection when anything changed and returns
it either way; the returned collection is modelled.) -/
def checkOverdue (today : String) (invoices : List Invoice) : List Invoice :=
  invoices.map (overdueStep today)

/-! ## `deleteInvoice` -/

/-- The `invoiceService.delete(id)`: `findIndex` + `splice(index, 1)` — remove the
first invoice with the given id; a missing id throws. -/
def deleteInvoiceL (id : String) : List Invoice → Except String (List Invoice)
  | [] => .error ("Invoice with ID " ++ id ++ " not found")
  | inv :: rest =>
    if inv.id = id then
      .ok rest
    else
      match deleteInvoiceL id rest with
      | .error e => .error e
      | .ok l => .ok (inv :: l)

/-! ## `update` -/

/-- The updated record built by `invoiceService.update`: spread of the
existing invoice, caller fields overwritten, line items and totals fully
recomputed from the input, `status` defaulting to the existing status when the
input omits it (JS `input.status || existingInvoice.status`), and `id`,
`invoiceNumber`, `createdAt` preserved from the existing record. -/
def updateBuild (input : InvoiceInput) (client : Client) (itemIds : Nat → String)
    (existing : Invoice) : Invoice :=
  { existing with
    clientId := input.clientId
    client := client
    status := input.status.getD existing.status
    issueDate := input.issueDate
    dueDate := input.dueDate
    lineItems := buildLineItems itemIds input.lineItems
    subtotal := (calculateTotalsDefault input.lineItems).subtotal
    tax := (calculateTotalsDefault input.lineItems).tax
    total := (calculateTotalsDefault input.lineItems).total
    notes := input.notes }

/-- Replace the first invoice with the given id by its updated version
(`invoices[index] = updatedInvoice` after `findIndex`). -/
def updateGo (input : InvoiceInput) (client : Client) (itemIds : Nat → String)
    (id : String) : List Invoice → Except String (List Invoice × Invoice)
  | [] => .error ("Invoice with ID " ++ id ++ " not found")
  | inv :: rest =>
    if inv.id = id then
      let updated := updateBuild input client itemIds inv
      .ok (updated :: rest, updated)
    else
      match updateGo input client itemIds id rest with
      | .error e => .error e
      | .ok (l, u) => .ok (inv :: l, u)

/-- The `invoiceService.update(id, input, clients)`: validate (throwing on
failure), find the invoice (throwing when missing), resolve the client
(throwing when missing), then replace the record and persist. -/
def updateInvoiceL (id : String) (input : InvoiceInput) (clients : List Client)
    (itemIds : Nat → String) (invoices : List Invoice) :
    Except String (List Invoice × Invoice) :=
  if (invoiceValidate input).valid = false then
    .error "Validation failed"
  else if invoices.all (fun inv => inv.id ≠ id) then
    .error ("Invoice with ID " ++ id ++ " not found")
  else
    match clients.find? (fun c => c.id == input.clientId) with
    | none => .error ("Client with ID " ++ input.clientId ++ " not found")
    | some client => updateGo input client itemIds id invoices

/-! ## Persisted state and `create` / `duplicate` -/

/-- The persisted collections the backend services read and write:
the client collection, the invoice collection and the invoice-number counter
(`localStorage` keys `invoicey_clients`, `invoicey_invoices`,
`invoicey_invoice_counter_data`). -/
structure Store where
  clients : List Client
  invoices : List Invoice
  counter : Option CounterData
deriving DecidableEq, Repr

/-- The `invoiceService.create(input, clients)`: validate (throwing on failure),
resolve the client (throwing when missing), build line items and totals
(default tax rate 10), generate an id and the next invoice number (persisting
the counter), default `status` to `draft`, stamp `createdAt` with today, and
append to the invoice collection.  The generated invoice id is the `newId`
parameter; `year`/`today` are the clock values. -/
def createInvoice (today : String) (year : Nat) (newId : String)
    (itemIds : Nat → String) (input : InvoiceInput) (clients : List Client)
    (st : Store) : Except String Invoice × Store :=
  if (invoiceValidate input).valid = false then
    (.error "Validation failed", st)
  else
    match clients.find? (fun c => c.id == input.clientId) with
    | none => (.error ("Client with ID " ++ input.clientId ++ " not found"), st)
    | some client =>
      let lineItems := buildLineItems itemIds input.lineItems
      let totals := calculateTotalsDefault input.lineItems
      let gen := generate year st.counter
      let newInvoice : Invoice :=
        { id := newId
          invoiceNumber := gen.1
          clientId := input.clientId
          client := client
          status := input.status.getD .draft
          issueDate := input.issueDate
          dueDate := input.dueDate
          lineItems := lineItems
          subtotal := totals.subtotal
          tax := totals.tax
          total := totals.total
          notes := input.notes
          createdAt := today }
      (.ok newInvoice,
       { st with invoices := st.invoices ++ [newInvoice], counter := some gen.2 })

/-- The `invoiceService.duplicate(id, clients)`: load the original (throwing when
missing), re-resolve its `clientId` against the current client collection
(throwing when missing), copy line items with fresh ids but identical
description/quantity/rate/amount, generate a new id and invoice number, force
`status = draft`, set `issueDate`/`createdAt` to today, keep the original
`dueDate`, copy `subtotal`/`tax`/`total`/`notes` verbatim, and append. -/
def duplicateS (today : String) (year : Nat) (newId : String)
    (itemIds : Nat → String) (id : String) (clients : List Client)
    (st : Store) : Except String Invoice × Store :=
  match st.invoices.find? (fun inv => inv.id == id) with
  | none => (.error ("Invoice with ID " ++ id ++ " not found"), st)
  | some original =>
    match clients.find? (fun c => c.id == original.clientId) with
    | none => (.error ("Client with ID " ++ original.clientId ++ " not found"), st)
    | some client =>
      let gen := generate year st.counter
      let newLineItems : List LineItem := original.lineItems.enum.map fun p =>
        { id := itemIds p.1
          description := p.2.description
          quantity := p.2.quantity
          rate := p.2.rate
          amount := p.2.amount }
      let newInvoice : Invoice :=
        { id := newId
          invoiceNumber := gen.1
          clientId := original.clientId
          client := client
          status := .draft
          issueDate := today
          dueDate := original.dueDate
          lineItems := newLineItems
          subtotal := original.subtotal
          tax := original.tax
          total := original.total
          notes := original.notes
          createdAt := today }
      (.ok newInvoice,
       { st with invoices := st.invoices ++ [newInvoice], counter := some gen.2 })

/-- Store-level `update`: persists the new collection on success, leaves the
store untouched when the service throws. -/
def updateInvoiceS (id : String) (input : InvoiceInput) (clients : List Client)
    (itemIds : Nat → String) (st : Store) : Except String Invoice × Store :=
  match updateInvoiceL id input clients itemIds st.invoices with
  | .error e => (.error e, st)
  | .ok (l, inv) => (.ok inv, { st with invoices := l })

/-- Store-level `delete`. -/
def deleteInvoiceS (id : String) (st : Store) : Except String Unit × Store :=
  match deleteInvoiceL id st.invoices with
  | .error e => (.error e, st)
  | .ok l => (.ok (), { st with invoices := l })

/-- Store-level `markAsPaid`. -/
def markAsPaidS (id : String) (st : Store) : Except String Invoice × Store :=
  match markAsPaidL id st.invoices with
  | .error e => (.error e, st)
  | .ok (l, inv) => (.ok inv, { st with invoices := l })

/-- Store-level `markAsSent`. -/
def markAsSentS (id : String) (st : Store) : Except String Invoice × Store :=
  match markAsSentL id st.invoices with
  | .error e => (.error e, st)
  | .ok (l, inv) => (.ok inv, { st with invoices := l })

/-! ## Metrics (`metricsService.calculate`) -/

/-- The dashboard `Metrics` record. -/
structure Metrics where
  totalRevenue : ℚ
  pendingAmount : ℚ
  overdueAmount : ℚ
  totalClients : Nat
  paidInvoices : Nat
  pendingInvoices : Nat
  overdueInvoices : Nat
  draftInvoices : Nat
deriving DecidableEq, Repr

/-- The mutable accumulators of the `for` loop in `metricsService.calculate`. -/
structure MetricsAcc where
  totalRevenue : ℚ
  pendingAmount : ℚ
  overdueAmount : ℚ
  paidInvoices : Nat
  pendingInvoices : Nat
  overdueInvoices : Nat
  draftInvoices : Nat
deriving DecidableEq, Repr

/-- One iteration of the loop: add the invoice's `total` to the bucket of its
status and bump that status's count (`draft` is only counted). -/
def metricsStep (a : MetricsAcc) (invoice : Invoice) : MetricsAcc :=
  match invoice.status with
  | .paid =>
    { a with totalRevenue := a.totalRevenue + invoice.total
             paidInvoices := a.paidInvoices + 1 }
  | .sent =>
    { a with pendingAmount := a.pendingAmount + invoice.total
             pendingInvoices := a.pendingInvoices + 1 }
  | .overdue =>
    { a with overdueAmount := a.overdueAmount + invoice.total
             overdueInvoices := a.overdueInvoices + 1 }
  | .draft =>
    { a with draftInvoices := a.draftInvoices + 1 }

/-- The `metricsService.calculate(invoices, clients)`: single pass over the
invoices, monetary sums rounded to 2 decimals only at the end,
`totalClients = clients.length`. -/
def metricsCalculate (invoices : List Invoice) (clients : List Client) : Metrics :=
  let a := invoices.foldl metricsStep ⟨0, 0, 0, 0, 0, 0, 0⟩
  { totalRevenue := round2 a.totalRevenue
    pendingAmount := round2 a.pendingAmount
    overdueAmount := round2 a.overdueAmount
    totalClients := clients.length
    paidInvoices := a.paidInvoices
    pendingInvoices := a.pendingInvoices
    overdueInvoices := a.overdueInvoices
    draftInvoices := a.draftInvoices }

/-! ## Client service -/

/-- The updated record built by `clientService.update`: spread of the existing
client, then every input field written over it — `company`, `phone` and
`address` are written even when absent from the input (JS
`input.company?.trim()` is `undefined` then), so an omitted optional field
clears the stored value; `id` and `createdAt` are preserved. -/
def clientUpdateBuild (input : ClientInput) (existing : Client) : Client :=
  { existing with
    name := jsTrim input.name
    email := jsTrim input.email
    company := input.company.map jsTrim
    phone := input.phone.map jsTrim
    address := input.address.map jsTrim }

/-- Replace the first client with the given id by its updated version. -/
def clientUpdateGo (input : ClientInput) (id : String) :
    List Client → Except String (List Client × Client)
  | [] => .error ("Client with ID " ++ id ++ " not found")
  | c :: rest =>
    if c.id = id then
      let updated := clientUpdateBuild input c
      .ok (updated :: rest, updated)
    else
      match clientUpdateGo input id rest with
      | .error e => .error e
      | .ok (l, u) => .ok (c :: l, u)

/-- The `clientService.update(id, input)`: validate (throwing on failure), find
the client (throwing when missing), rebuild the record and persist. -/
def clientUpdate (id : String) (input : ClientInput) (clients : List Client) :
    Except String (List Client × Client) :=
  if (clientValidate input).valid = false then
    .error "Validation failed"
  else
    clientUpdateGo input id clients

/-- The `clientService.create(input)`: validate (throwing on failure), build the
new client with trimmed fields, a fresh id and today's timestamp, and append
to the collection. -/
def clientCreate (today : String) (newId : String) (input : ClientInput)
    (clients : List Client) : Except String (List Client × Client) :=
  if (clientValidate input).valid = false then
    .error "Validation failed"
  else
    let newClient : Client :=
      { id := newId
        name := jsTrim input.name
        email := jsTrim input.email
        company := input.company.map jsTrim
        phone := input.phone.map jsTrim
        address := input.address.map jsTrim
        createdAt := today }
    .ok (clients ++ [newClient], newClient)

/-! ## Supabase-backed invoice service (frontend `lib/services/invoiceService`)

Only the parts the claims need: the per-user sequence table, and `create`
with its rollback-on-line-item-failure.  A failing `insert` of the line items
is modelled by the `fail` flag (an injected adapter failure). -/

/-- An `invoices` table row (per-user fields the model needs). -/
structure SbInvoice where
  id : String
  invoiceNumber : String
  clientId : Option String
  status : InvoiceStatus
  issueDate : String
  dueDate : String
  subtotal : ℚ
  tax : ℚ
  total : ℚ
  notes : Option String
deriving DecidableEq, Repr

/-- A `line_items` table row. -/
structure SbLineItem where
  invoiceId : String
  description : String
  quantity : ℚ
  rate : ℚ
  amount : ℚ
deriving DecidableEq, Repr

/-- The user's persisted collections in the Supabase variant: the
`invoice_sequences` row (`last_number`), the `invoices` rows and the
`line_items` rows. -/
structure SbStore where
  lastNumber : Option Nat
  invoices : List SbInvoice
  lineItems : List SbLineItem
deriving DecidableEq, Repr

/-- JS `String.prototype.padStart(4, '0')`. -/
def padStart4 (s : String) : String :=
  if s.length ≥ 4 then s else (String.mk (List.replicate (4 - s.length) '0')) ++ s

/-- The `generateInvoiceNumber()`: create the sequence row with `last_number = 1`
when absent, otherwise increment it; format as `INV-<4-digit-padded>`. -/
def sbGenerateInvoiceNumber (st : SbStore) : String × SbStore :=
  match st.lastNumber with
  | none => ("INV-" ++ padStart4 (toString 1), { st with lastNumber := some 1 })
  | some n =>
    ("INV-" ++ padStart4 (toString (n + 1)), { st with lastNumber := some (n + 1) })

/-- The `invoices` row inserted by the Supabase `create` (totals computed
with this variant's `calculateTotals`, whose `taxRate` defaults to 0). -/
def sbRow (newId : String) (input : InvoiceInput) (invoiceNumber : String) : SbInvoice :=
  { id := newId
    invoiceNumber := invoiceNumber
    clientId := if input.clientId = "" then none else some input.clientId
    status := input.status.getD .draft
    issueDate := input.issueDate
    dueDate := input.dueDate
    subtotal := (calculateTotals input.lineItems 0).subtotal
    tax := (calculateTotals input.lineItems 0).tax
    total := (calculateTotals input.lineItems 0).total
    notes := input.notes }

/-- The Supabase `create(input)`: generate the invoice number (persisting the
incremented sequence), insert the invoice row (totals computed before saving),
then insert the line items (row `amount = quantity * rate`, unrounded); when
the line-item insert fails, compensate by deleting the just-created invoice
row and rethrow.  `fail` injects that line-item insert failure; `newId` is
the database-generated invoice id. -/
def sbCreate (fail : Bool) (newId : String) (input : InvoiceInput)
    (st : SbStore) : Except String SbInvoice × SbStore :=
  let gen := sbGenerateInvoiceNumber st
  let row := sbRow newId input gen.1
  let st2 := { gen.2 with invoices := gen.2.invoices ++ [row] }
  if input.lineItems.isEmpty then
    (.ok row, st2)
  else if fail then
    let st3 := { st2 with invoices := st2.invoices.filter (fun r => r.id ≠ newId) }
    (.error "A database error occurred. Please try again.", st3)
  else
    let rows := input.lineItems.map fun item =>
      { invoiceId := newId
        description := item.description
        quantity := item.quantity
        rate := item.rate
        amount := item.quantity * item.rate : SbLineItem }
    (.ok row, { st2 with lineItems := st2.lineItems ++ rows })

/-! ## Theorems -/

/-- Peeling a `foldl` of running sums of `quantity * rate` into a map-sum. -/
lemma foldl_qr_sum (a : ℚ) (l : List LineItemInput) :
    l.foldl (fun sum item => sum + item.quantity * item.rate) a
      = a + (l.map fun i => i.quantity * i.rate).sum := by
  induction l generalizing a with
  | nil => simp
  | cons x t ih => simp [ih, add_assoc]

/-- C1 (counterexample): the claim says the three results are rounded
half *away from zero* at the cent boundary.  At the single line item
`quantity = 1, rate = -1/8` (both exactly representable as binary doubles,
so the rational model agrees with the JS floats), the raw subtotal is
`-0.125`; `Math.round(-12.5) = -12` (ties toward `+∞`), so the code returns
subtotal `-0.12`, while half-away-from-zero rounding gives `-0.13`. -/
theorem calculateTotals_not_half_away_from_zero :
    (calculateTotals [{ description := "Item", quantity := 1, rate := -1/8 }] 10).subtotal
        = -12/100 ∧
    round2AwayFromZero ((1 : ℚ) * (-1/8)) = -13/100 ∧
    (calculateTotals [{ description := "Item", quantity := 1, rate := -1/8 }] 10).subtotal
        ≠ round2AwayFromZero ((1 : ℚ) * (-1/8)) := by
  refine ⟨?_, ?_, ?_⟩ <;>
    norm_num [calculateTotals, round2, jsRound, round2AwayFromZero, roundHalfAwayFromZero]

/-- C1 (amended): `calculateTotals` returns
`subtotal = round2(Σ quantity_i * rate_i)`,
`tax = round2(subtotal_raw * taxRate/100)`,
`total = round2(subtotal_raw + tax_raw)`, the three results rounded to two
decimal places independently from the raw (unrounded) intermediate values,
where `round2` rounds at the cent boundary to the nearest cent with ties
toward `+∞` (JS `Math.round`), not away from zero; `taxRate` defaults to 10
when the caller does not supply it. -/
theorem calculateTotals_rounds_half_up (items : List LineItemInput) (taxRate : ℚ) :
    (calculateTotals items taxRate).subtotal
        = round2 ((items.map fun i => i.quantity * i.rate).sum) ∧
    (calculateTotals items taxRate).tax
        = round2 (((items.map fun i => i.quantity * i.rate).sum) * (taxRate / 100)) ∧
    (calculateTotals items taxRate).total
        = round2 ((items.map fun i => i.quantity * i.rate).sum
            + ((items.map fun i => i.quantity * i.rate).sum) * (taxRate / 100)) ∧
    calculateTotalsDefault items = calculateTotals items 10 ∧
    (∀ q : ℚ, ∃ n : ℤ, round2 q = (n : ℚ) / 100 ∧
        q * 100 - 1/2 < (n : ℚ) ∧ (n : ℚ) ≤ q * 100 + 1/2) := by
  refine ⟨?_, ?_, ?_, rfl, ?_⟩
  · simp [calculateTotals, foldl_qr_sum]
  · simp [calculateTotals, foldl_qr_sum]
  · simp [calculateTotals, foldl_qr_sum]
  · intro q
    refine ⟨jsRound (q * 100), rfl, ?_, ?_⟩
    · have h := Int.lt_floor_add_one (q * 100 + 1/2)
      simp only [jsRound]
      push_cast at h ⊢
      linarith
    · have h := Int.floor_le (q * 100 + 1/2)
      simp only [jsRound]
      push_cast at h ⊢
      linarith

/-- The overdue rule leaves an invoice alone when its condition fails. -/
lemma overdueStep_of_neg (today : String) (inv : Invoice)
    (h : ¬(inv.status = .sent ∧ inv.dueDate < today)) :
    overdueStep today inv = inv := by
  rw [overdueStep, if_neg h]

/-- The overdue rule transitions an invoice when its condition holds. -/
lemma overdueStep_of_pos (today : String) (inv : Invoice)
    (h : inv.status = .sent ∧ inv.dueDate < today) :
    overdueStep today inv = { inv with status := .overdue } := by
  rw [overdueStep, if_pos h]

/-- The per-invoice overdue rule is idempotent: a transitioned invoice has
status `overdue`, which the rule never touches again. -/
lemma overdueStep_idem (today : String) (inv : Invoice) :
    overdueStep today (overdueStep today inv) = overdueStep today inv := by
  by_cases h : inv.status = .sent ∧ inv.dueDate < today
  · rw [overdueStep_of_pos today inv h, overdueStep_of_neg]
    simp
  · rw [overdueStep_of_neg today inv h, overdueStep_of_neg today inv h]

/-- Pointwise characterization of `checkOverdue`. -/
lemma checkOverdue_pointwise (today : String) (invs : List Invoice)
    (j : Nat) (inv : Invoice) (h : invs[j]? = some inv) :
    (checkOverdue today invs)[j]? =
      some (if inv.status = .sent ∧ inv.dueDate < today
            then { inv with status := .overdue } else inv) := by
  rw [checkOverdue, List.getElem?_map, h, Option.map, overdueStep]

/-- C2: `checkOverdue` preserves the collection's length and order; the
invoice at each position is transitioned to `overdue` exactly when it was
`sent` with `dueDate` lexically before today and is returned unchanged
otherwise; and a second application changes nothing. -/
theorem checkOverdue_spec (today : String) (invs : List Invoice) :
    (checkOverdue today invs).length = invs.length ∧
    (∀ (i : Nat) (inv : Invoice), invs[i]? = some inv →
      (checkOverdue today invs)[i]? =
        some (if inv.status = .sent ∧ inv.dueDate < today
              then { inv with status := .overdue } else inv)) ∧
    checkOverdue today (checkOverdue today invs) = checkOverdue today invs := by
  refine ⟨by simp [checkOverdue], ?_, ?_⟩
  · intro i inv h
    exact checkOverdue_pointwise today invs i inv h
  · simp [checkOverdue, List.map_map, Function.comp_def, overdueStep_idem]

/-- A sample client for concrete instantiations. -/
def witClient : Client :=
  { id := "c1", name := "Ada", email := "ada@example.com", company := none,
    phone := none, address := none, createdAt := "2026-01-01" }

/-- A sample `sent` invoice with a past due date. -/
def witInvoiceSent : Invoice :=
  { id := "i1", invoiceNumber := "INV-2026-001", clientId := "c1",
    client := witClient, status := .sent, issueDate := "2026-01-01",
    dueDate := "2026-01-10", lineItems := [], subtotal := 100, tax := 10,
    total := 110, notes := none, createdAt := "2026-01-01" }

/-- C2 (witness): the positional characterization instantiated on a concrete
one-invoice collection. -/
theorem checkOverdue_spec_witness :
    (checkOverdue "2026-02-01" [witInvoiceSent])[0]? =
      some (if witInvoiceSent.status = .sent ∧ witInvoiceSent.dueDate < "2026-02-01"
            then { witInvoiceSent with status := .overdue } else witInvoiceSent) :=
  (checkOverdue_spec "2026-02-01" [witInvoiceSent]).2.1 0 witInvoiceSent rfl

/-- The `padStart3` always produces at least 3 characters. -/
lemma padStart3_length (s : String) : 3 ≤ (padStart3 s).length := by
  unfold padStart3
  by_cases h : s.length ≥ 3
  · simp [h]
  · rw [if_neg h, String.length_append]
    have hm : (String.mk (List.replicate (3 - s.length) '0')).length
        = 3 - s.length := by
      show (List.replicate (3 - s.length) '0').length = 3 - s.length
      exact List.length_replicate _ _
    rw [hm]
    omega

/-- C4: the generator's next sequence is 1 when no counter is stored or the
stored year differs, and stored `sequence + 1` otherwise; it persists
`{year, sequence}`; the returned string is `INV-<year>-<sequence padded to at
least 3 digits>`; and a consecutive call in the same year is strictly
larger. -/
theorem generator_spec (year : Nat) (st : Option CounterData) :
    (st = none → (generate year st).2.sequence = 1) ∧
    (∀ c : CounterData, st = some c → c.year ≠ year →
        (generate year st).2.sequence = 1) ∧
    (∀ c : CounterData, st = some c → c.year = year →
        (generate year st).2.sequence = c.sequence + 1) ∧
    (generate year st).2.year = year ∧
    (generate year st).1 =
      "INV-" ++ toString year ++ "-"
        ++ padStart3 (toString (generate year st).2.sequence) ∧
    3 ≤ (padStart3 (toString (generate year st).2.sequence)).length ∧
    (generate year (some (generate year st).2)).2.sequence
      = (generate year st).2.sequence + 1 ∧
    (generate year st).2.sequence
      < (generate year (some (generate year st).2)).2.sequence := by
  refine ⟨?_, ?_, ?_, rfl, rfl, padStart3_length _, ?_, ?_⟩
  · intro h; subst h; rfl
  · intro c h hy; subst h; simp [generate, getNextSequence, hy]
  · intro c h hy; subst h; simp [generate, getNextSequence, hy]
  · simp [generate, getNextSequence]
  · simp [generate, getNextSequence]

/-- C4 (witness): an in-year call increments the stored sequence, and the
very first call of 2026 produces `INV-2026-001`. -/
theorem generator_spec_witness :
    (generate 2026 (some ⟨2026, 7⟩)).2.sequence = 7 + 1 ∧
    (generate 2026 none).1 = "INV-2026-001" :=
  ⟨(generator_spec 2026 (some ⟨2026, 7⟩)).2.2.1 ⟨2026, 7⟩ rfl rfl, by decide⟩

/-- Closed form of the metrics loop: each accumulator field collects the sum
(resp. count) over the invoices of its status. -/
lemma metrics_foldl (invs : List Invoice) (a : MetricsAcc) :
    invs.foldl metricsStep a =
      { totalRevenue := a.totalRevenue
          + ((invs.filter fun i => i.status == .paid).map Invoice.total).sum
        pendingAmount := a.pendingAmount
          + ((invs.filter fun i => i.status == .sent).map Invoice.total).sum
        overdueAmount := a.overdueAmount
          + ((invs.filter fun i => i.status == .overdue).map Invoice.total).sum
        paidInvoices := a.paidInvoices + (invs.filter fun i => i.status == .paid).length
        pendingInvoices := a.pendingInvoices + (invs.filter fun i => i.status == .sent).length
        overdueInvoices := a.overdueInvoices + (invs.filter fun i => i.status == .overdue).length
        draftInvoices := a.draftInvoices + (invs.filter fun i => i.status == .draft).length } := by
  induction invs generalizing a with
  | nil => simp
  | cons x t ih =>
    rw [List.foldl_cons, ih]
    cases hx : x.status <;>
      simp [metricsStep, hx, List.filter_cons, MetricsAcc.mk.injEq] <;>
      ring_nf <;> simp

/-- C7: `calculate` returns the three monetary sums over the invoices of
status `paid`/`sent`/`overdue`, rounded to 2 decimals only at the end, the
per-status counts (including `draft`), and `totalClients = clients.length`;
an invoice contributes only to the bucket of its own status. -/
theorem metricsCalculate_spec (invoices : List Invoice) (clients : List Client) :
    metricsCalculate invoices clients =
      { totalRevenue :=
          round2 (((invoices.filter fun i => i.status == .paid).map Invoice.total).sum)
        pendingAmount :=
          round2 (((invoices.filter fun i => i.status == .sent).map Invoice.total).sum)
        overdueAmount :=
          round2 (((invoices.filter fun i => i.status == .overdue).map Invoice.total).sum)
        totalClients := clients.length
        paidInvoices := (invoices.filter fun i => i.status == .paid).length
        pendingInvoices := (invoices.filter fun i => i.status == .sent).length
        overdueInvoices := (invoices.filter fun i => i.status == .overdue).length
        draftInvoices := (invoices.filter fun i => i.status == .draft).length } := by
  simp [metricsCalculate, metrics_foldl]

/-- The `markWithStatus` (for two statuses simultaneously, sharing the found
index): when the collection contains the id, both runs find the same first
matching invoice and replace exactly it by its status-overwritten copy. -/
lemma markWithStatus_pair (s₁ s₂ : InvoiceStatus) (id : String)
    (invs : List Invoice) (h : ∃ inv ∈ invs, inv.id = id) :
    ∃ (i : Nat) (inv : Invoice), invs[i]? = some inv ∧ inv.id = id ∧
      markWithStatus s₁ id invs
        = .ok (invs.set i { inv with status := s₁ }, { inv with status := s₁ }) ∧
      markWithStatus s₂ id invs
        = .ok (invs.set i { inv with status := s₂ }, { inv with status := s₂ }) := by
  induction invs with
  | nil => simp at h
  | cons x t ih =>
    by_cases hx : x.id = id
    · exact ⟨0, x, by simp, hx,
        by simp [markWithStatus, hx], by simp [markWithStatus, hx]⟩
    · have h' : ∃ inv ∈ t, inv.id = id := by
        rcases h with ⟨inv, hm, hid⟩
        rcases List.mem_cons.mp hm with h1 | h2
        · exact absurd (h1 ▸ hid) hx
        · exact ⟨inv, h2, hid⟩
      rcases ih h' with ⟨i, inv, hget, hid, heq₁, heq₂⟩
      refine ⟨i + 1, inv, by simpa using hget, hid, ?_, ?_⟩
      · simp [markWithStatus, hx, heq₁]
      · simp [markWithStatus, hx, heq₂]

/-- C9: when the collection contains an invoice with the given id,
`markAsPaid` (resp. `markAsSent`) replaces exactly the first such invoice by a
copy whose only changed field is `status` (set to `paid`, resp. `sent`); the
collection's length is unchanged and every other position is untouched. -/
theorem markStatus_frame (id : String) (invs : List Invoice)
    (h : ∃ inv ∈ invs, inv.id = id) :
    ∃ (i : Nat) (inv : Invoice), invs[i]? = some inv ∧ inv.id = id ∧
      markAsPaidL id invs
        = .ok (invs.set i { inv with status := .paid }, { inv with status := .paid }) ∧
      markAsSentL id invs
        = .ok (invs.set i { inv with status := .sent }, { inv with status := .sent }) ∧
      (∀ u : Invoice, (invs.set i u).length = invs.length) ∧
      (∀ (u : Invoice) (j : Nat), j ≠ i → (invs.set i u)[j]? = invs[j]?) := by
  rcases markWithStatus_pair .paid .sent id invs h with ⟨i, inv, hget, hid, h₁, h₂⟩
  exact ⟨i, inv, hget, hid, h₁, h₂, fun u => List.length_set invs i u,
    fun u j hj => List.getElem?_set_ne (fun hij => hj hij.symm)⟩

/-- C9 (witness): marking the only invoice of a concrete collection. -/
theorem markStatus_frame_witness :
    ∃ (i : Nat) (inv : Invoice), [witInvoiceSent][i]? = some inv ∧ inv.id = "i1" ∧
      markAsPaidL "i1" [witInvoiceSent]
        = .ok ([witInvoiceSent].set i { inv with status := .paid },
               { inv with status := .paid }) ∧
      markAsSentL "i1" [witInvoiceSent]
        = .ok ([witInvoiceSent].set i { inv with status := .sent },
               { inv with status := .sent }) ∧
      (∀ u : Invoice, ([witInvoiceSent].set i u).length = [witInvoiceSent].length) ∧
      (∀ (u : Invoice) (j : Nat), j ≠ i → ([witInvoiceSent].set i u)[j]? = [witInvoiceSent][j]?) :=
  markStatus_frame "i1" [witInvoiceSent] ⟨witInvoiceSent, by simp, rfl⟩

/-- C3: duplicating a stored invoice whose client is present yields a new
invoice carrying the supplied fresh id and the freshly generated invoice
number (both distinct from the original's), status `draft`, `issueDate` =
today, the original `dueDate` unchanged, line items copied with fresh ids but
identical description/quantity/rate/amount, and `subtotal`/`tax`/`total`/
`notes` verbatim from the original; the new invoice is appended to the
collection. -/
theorem duplicate_spec (today : String) (year : Nat) (newId : String)
    (itemIds : Nat → String) (id : String) (clients : List Client) (st : Store)
    (original : Invoice) (client : Client)
    (hfind : st.invoices.find? (fun inv => inv.id == id) = some original)
    (hclient : clients.find? (fun c => c.id == original.clientId) = some client)
    (hIdFresh : newId ∉ st.invoices.map Invoice.id)
    (hNumFresh : (generate year st.counter).1 ∉ st.invoices.map Invoice.invoiceNumber)
    (hItemFresh : ∀ n : Nat, itemIds n ∉ original.lineItems.map LineItem.id) :
    ∃ newInv : Invoice,
      duplicateS today year newId itemIds id clients st
        = (.ok newInv, { st with invoices := st.invoices ++ [newInv],
                                 counter := some (generate year st.counter).2 }) ∧
      newInv.id = newId ∧ newInv.id ≠ original.id ∧
      newInv.invoiceNumber ≠ original.invoiceNumber ∧
      newInv.status = .draft ∧
      newInv.issueDate = today ∧
      newInv.dueDate = original.dueDate ∧
      newInv.clientId = original.clientId ∧
      newInv.client = client ∧
      newInv.lineItems.length = original.lineItems.length ∧
      (∀ (j : Nat) (item : LineItem), original.lineItems[j]? = some item →
        newInv.lineItems[j]? =
          some { id := itemIds j, description := item.description,
                 quantity := item.quantity, rate := item.rate,
                 amount := item.amount } ∧
        itemIds j ∉ original.lineItems.map LineItem.id) ∧
      newInv.subtotal = original.subtotal ∧ newInv.tax = original.tax ∧
      newInv.total = original.total ∧ newInv.notes = original.notes := by
  have hmem : original ∈ st.invoices := List.mem_of_find?_eq_some hfind
  refine ⟨{ id := newId, invoiceNumber := (generate year st.counter).1,
            clientId := original.clientId, client := client, status := .draft,
            issueDate := today, dueDate := original.dueDate,
            lineItems := original.lineItems.enum.map fun p =>
              { id := itemIds p.1, description := p.2.description,
                quantity := p.2.quantity, rate := p.2.rate, amount := p.2.amount },
            subtotal := original.subtotal, tax := original.tax,
            total := original.total, notes := original.notes, createdAt := today },
    by simp only [duplicateS, hfind, hclient], rfl, ?_, ?_, rfl, rfl, rfl, rfl,
    rfl, ?_, ?_, rfl, rfl, rfl, rfl⟩
  · intro hcontra
    apply hIdFresh
    have he : newId = original.id := hcontra
    rw [he]
    exact List.mem_map_of_mem Invoice.id hmem
  · intro hcontra
    apply hNumFresh
    have he : (generate year st.counter).1 = original.invoiceNumber := hcontra
    rw [he]
    exact List.mem_map_of_mem Invoice.invoiceNumber hmem
  · simp
  · intro j item hj
    refine ⟨?_, hItemFresh j⟩
    show (original.lineItems.enum.map _)[j]? = _
    rw [List.getElem?_map, List.getElem?_enum, hj]
    rfl

/-- An invoice with one line item, for concrete instantiations. -/
def witInvoiceItems : Invoice :=
  { id := "i1", invoiceNumber := "INV-2026-001", clientId := "c1",
    client := witClient, status := .sent, issueDate := "2026-01-01",
    dueDate := "2026-01-31",
    lineItems := [{ id := "li1", description := "Work", quantity := 2,
                    rate := 100, amount := 200 }],
    subtotal := 200, tax := 20, total := 220, notes := some "Thanks",
    createdAt := "2026-01-01" }

/-- C3 (witness): duplicating the concrete invoice `witInvoiceItems`. -/
theorem duplicate_spec_witness :
    ∃ newInv : Invoice,
      duplicateS "2026-02-01" 2026 "i2" (fun _ => "li2") "i1" [witClient]
          { clients := [witClient], invoices := [witInvoiceItems],
            counter := some { year := 2026, sequence := 1 } }
        = (.ok newInv,
           { clients := [witClient], invoices := [witInvoiceItems] ++ [newInv],
             counter := some (generate 2026 (some { year := 2026, sequence := 1 })).2 }) ∧
      newInv.id = "i2" ∧ newInv.id ≠ witInvoiceItems.id ∧
      newInv.invoiceNumber ≠ witInvoiceItems.invoiceNumber ∧
      newInv.status = .draft ∧
      newInv.issueDate = "2026-02-01" ∧
      newInv.dueDate = witInvoiceItems.dueDate ∧
      newInv.clientId = witInvoiceItems.clientId ∧
      newInv.client = witClient ∧
      newInv.lineItems.length = witInvoiceItems.lineItems.length ∧
      (∀ (j : Nat) (item : LineItem), witInvoiceItems.lineItems[j]? = some item →
        newInv.lineItems[j]? =
          some { id := "li2", description := item.description,
                 quantity := item.quantity, rate := item.rate,
                 amount := item.amount } ∧
        "li2" ∉ witInvoiceItems.lineItems.map LineItem.id) ∧
      newInv.subtotal = witInvoiceItems.subtotal ∧ newInv.tax = witInvoiceItems.tax ∧
      newInv.total = witInvoiceItems.total ∧ newInv.notes = witInvoiceItems.notes :=
  duplicate_spec "2026-02-01" 2026 "i2" (fun _ => "li2") "i1" [witClient]
    { clients := [witClient], invoices := [witInvoiceItems],
      counter := some { year := 2026, sequence := 1 } }
    witInvoiceItems witClient (by decide) (by decide) (by decide) (by decide)
    (by
      intro n
      show "li2" ∉ List.map LineItem.id witInvoiceItems.lineItems
      decide)

/-- The `clientUpdateGo` replaces exactly the first client with the given id by
its rebuilt version. -/
lemma clientUpdateGo_spec (input : ClientInput) (id : String)
    (clients : List Client) (h : ∃ c ∈ clients, c.id = id) :
    ∃ (i : Nat) (existing : Client), clients[i]? = some existing ∧ existing.id = id ∧
      clientUpdateGo input id clients
        = .ok (clients.set i (clientUpdateBuild input existing),
               clientUpdateBuild input existing) := by
  induction clients with
  | nil => simp at h
  | cons x t ih =>
    by_cases hx : x.id = id
    · exact ⟨0, x, by simp, hx, by simp [clientUpdateGo, hx]⟩
    · have h' : ∃ c ∈ t, c.id = id := by
        rcases h with ⟨c, hm, hid⟩
        rcases List.mem_cons.mp hm with h1 | h2
        · exact absurd (h1 ▸ hid) hx
        · exact ⟨c, h2, hid⟩
      rcases ih h' with ⟨i, existing, hget, hid, heq⟩
      exact ⟨i + 1, existing, by simpa using hget, hid,
        by simp [clientUpdateGo, hx, heq]⟩

/-- C10: for an existing client and valid input, `clientService.update` fully
replaces the optional fields from the input — `company`/`phone`/`address`
become exactly the trimmed input values, so a field omitted from the input is
cleared even when the stored record had a value — while `id` and `createdAt`
are kept from the existing record. -/
theorem clientUpdate_replaces_optional (id : String) (input : ClientInput)
    (clients : List Client)
    (hvalid : (clientValidate input).valid = true)
    (hmem : ∃ c ∈ clients, c.id = id) :
    ∃ (i : Nat) (existing updated : Client),
      clients[i]? = some existing ∧ existing.id = id ∧
      clientUpdate id input clients = .ok (clients.set i updated, updated) ∧
      updated.id = existing.id ∧ updated.createdAt = existing.createdAt ∧
      updated.name = jsTrim input.name ∧ updated.email = jsTrim input.email ∧
      updated.company = input.company.map jsTrim ∧
      updated.phone = input.phone.map jsTrim ∧
      updated.address = input.address.map jsTrim ∧
      (input.company = none → updated.company = none) ∧
      (input.phone = none → updated.phone = none) ∧
      (input.address = none → updated.address = none) := by
  rcases clientUpdateGo_spec input id clients hmem with ⟨i, existing, hget, hid, heq⟩
  refine ⟨i, existing, clientUpdateBuild input existing, hget, hid, ?_, rfl, rfl,
    rfl, rfl, rfl, rfl, rfl, ?_, ?_, ?_⟩
  · rw [clientUpdate, if_neg (by simp [hvalid]), heq]
  · intro hc; simp [clientUpdateBuild, hc]
  · intro hc; simp [clientUpdateBuild, hc]
  · intro hc; simp [clientUpdateBuild, hc]

/-- A stored client whose optional fields are all populated. -/
def witClientFull : Client :=
  { id := "c9", name := "Grace", email := "grace@example.com",
    company := some "Acme", phone := some "555", address := some "1 Way",
    createdAt := "2026-01-02" }

/-- C10 (witness): updating `witClientFull` with an input that omits
`company`, `phone` and `address` clears all three. -/
theorem clientUpdate_replaces_optional_witness :
    ∃ (i : Nat) (existing updated : Client),
      [witClientFull][i]? = some existing ∧ existing.id = "c9" ∧
      clientUpdate "c9" { name := "Grace H", email := "g@example.com",
                          company := none, phone := none, address := none }
          [witClientFull]
        = .ok ([witClientFull].set i updated, updated) ∧
      updated.id = existing.id ∧ updated.createdAt = existing.createdAt ∧
      updated.name = "Grace H" ∧ updated.email = "g@example.com" ∧
      updated.company = none ∧
      updated.phone = none ∧
      updated.address = none ∧
      ((none : Option String) = none → updated.company = none) ∧
      ((none : Option String) = none → updated.phone = none) ∧
      ((none : Option String) = none → updated.address = none) := by
  have h := clientUpdate_replaces_optional "c9"
    { name := "Grace H", email := "g@example.com",
      company := none, phone := none, address := none }
    [witClientFull] (by decide) ⟨witClientFull, by simp, rfl⟩
  rcases h with ⟨i, existing, updated, h1, h2, h3, h4, h5, h6, h7, h8, h9, h10, h11, h12, h13⟩
  exact ⟨i, existing, updated, h1, h2, h3, h4, h5, h6.trans (by decide),
    h7.trans (by decide), h11 rfl, h12 rfl, h13 rfl,
    fun _ => h11 rfl, fun _ => h12 rfl, fun _ => h13 rfl⟩

/-- An invoice input with no client selected and no line items. -/
def badInvoiceInput : InvoiceInput :=
  { clientId := "", issueDate := "2026-01-01", dueDate := "2026-01-31",
    lineItems := [], notes := none, status := none }

/-- A client input with blank name and email. -/
def badClientInput : ClientInput :=
  { name := "", email := "", company := none, phone := none, address := none }

/-- C5 (counterexample): the claim says `create` and `update` invoked with
invalid input do not throw.  For the concrete invalid inputs
`badInvoiceInput` (no client, no line items) and `badClientInput` (blank name
and email), `invoiceService.create`, `invoiceService.update`,
`clientService.create` and `clientService.update` all throw a
`Validation failed` error. -/
theorem create_update_throw_on_invalid_input :
    (invoiceValidate badInvoiceInput).valid = false ∧
    (createInvoice "2026-01-01" 2026 "i1" (fun _ => "li") badInvoiceInput []
        { clients := [], invoices := [], counter := none }).1
      = .error "Validation failed" ∧
    updateInvoiceL "i1" badInvoiceInput [] (fun _ => "li") [witInvoiceSent]
      = .error "Validation failed" ∧
    (clientValidate badClientInput).valid = false ∧
    clientCreate "2026-01-01" "c1" badClientInput [] = .error "Validation failed" ∧
    clientUpdate "c9" badClientInput [witClientFull] = .error "Validation failed" := by
  refine ⟨by decide, rfl, rfl, by decide, rfl, rfl⟩

/-- C5 (amended): validation failures are reported by `validate` returning a
structured `{valid: false, errors: {field: message}}` value (blank `clientId`,
empty or all-blank-description line items, blank client name or email each
produce `valid = false` with the corresponding field key); `validate` itself
never throws — but `create` and `update` invoked with such invalid input
*throw* a `Validation failed` error (persisting nothing) instead of returning
the structured value. -/
theorem validation_structured_but_services_throw :
    (∀ input : InvoiceInput, jsTrim input.clientId = "" →
      (invoiceValidate input).valid = false ∧
      ("clientId", "Please select a client") ∈ (invoiceValidate input).errors) ∧
    (∀ input : InvoiceInput, input.lineItems = [] →
      (invoiceValidate input).valid = false ∧
      ("lineItems", "At least one line item is required") ∈ (invoiceValidate input).errors) ∧
    (∀ input : InvoiceInput, input.lineItems ≠ [] →
      (∀ li ∈ input.lineItems, jsTrim li.description = "") →
      (invoiceValidate input).valid = false ∧
      ("lineItems", "At least one line item must have a description")
        ∈ (invoiceValidate input).errors) ∧
    (∀ input : ClientInput, jsTrim input.name = "" →
      (clientValidate input).valid = false ∧
      ("name", "Name is required") ∈ (clientValidate input).errors) ∧
    (∀ input : ClientInput, jsTrim input.email = "" →
      (clientValidate input).valid = false ∧
      ("email", "Email is required") ∈ (clientValidate input).errors) ∧
    (∀ (input : InvoiceInput) (today : String) (year : Nat) (newId : String)
        (itemIds : Nat → String) (clients : List Client) (st : Store),
      (invoiceValidate input).valid = false →
      createInvoice today year newId itemIds input clients st
        = (.error "Validation failed", st)) ∧
    (∀ (id : String) (input : InvoiceInput) (clients : List Client)
        (itemIds : Nat → String) (invs : List Invoice),
      (invoiceValidate input).valid = false →
      updateInvoiceL id input clients itemIds invs = .error "Validation failed") ∧
    (∀ (today newId : String) (input : ClientInput) (clients : List Client),
      (clientValidate input).valid = false →
      clientCreate today newId input clients = .error "Validation failed") ∧
    (∀ (id : String) (input : ClientInput) (clients : List Client),
      (clientValidate input).valid = false →
      clientUpdate id input clients = .error "Validation failed") := by
  refine ⟨?_, ?_, ?_, ?_, ?_, ?_, ?_, ?_, ?_⟩
  · intro input h
    constructor <;> simp [invoiceValidate, h]
  · intro input h
    constructor <;> simp [invoiceValidate, h]
  · intro input hne hall
    have hany : input.lineItems.any (fun item => jsTrim item.description ≠ "") = false := by
      simp only [List.any_eq_false]
      intro li hli
      simp [hall li hli]
    constructor <;> simp [invoiceValidate, hne, hany] <;>
      first
        | exact hall
        | exact fun _ => hall
  · intro input h
    constructor <;> simp [clientValidate, h]
  · intro input h
    constructor <;> simp [clientValidate, h]
  · intro input today year newId itemIds clients st h
    rw [createInvoice, if_pos h]
  · intro id input clients itemIds invs h
    rw [updateInvoiceL, if_pos h]
  · intro today newId input clients h
    rw [clientCreate, if_pos h]
  · intro id input clients h
    rw [clientUpdate, if_pos h]

/-- C5 (witness): the amended characterization instantiated on the concrete
invalid inputs. -/
theorem validation_structured_but_services_throw_witness :
    ((invoiceValidate badInvoiceInput).valid = false ∧
      ("clientId", "Please select a client") ∈ (invoiceValidate badInvoiceInput).errors) ∧
    ((clientValidate badClientInput).valid = false ∧
      ("name", "Name is required") ∈ (clientValidate badClientInput).errors) ∧
    updateInvoiceL "i1" badInvoiceInput [] (fun _ => "li") [witInvoiceSent]
      = .error "Validation failed" :=
  ⟨validation_structured_but_services_throw.1 badInvoiceInput (by decide),
   validation_structured_but_services_throw.2.2.2.1 badClientInput (by decide),
   validation_structured_but_services_throw.2.2.2.2.2.2.1 "i1" badInvoiceInput []
     (fun _ => "li") [witInvoiceSent] (by decide)⟩

/-- Pointwise view of a successful `markWithStatus` run: the returned invoice
has the new status, and every position holds either the original invoice or
its status-overwritten copy. -/
lemma markWithStatus_pointwise (s : InvoiceStatus) (id : String)
    (invs l : List Invoice) (u : Invoice)
    (h : markWithStatus s id invs = .ok (l, u)) :
    u.status = s ∧ ∀ (j : Nat) (inv inv' : Invoice),
      invs[j]? = some inv → l[j]? = some inv' →
      inv' = inv ∨ inv' = { inv with status := s } := by
  induction invs generalizing l with
  | nil => simp [markWithStatus] at h
  | cons x t ih =>
    by_cases hx : x.id = id
    · rw [markWithStatus, if_pos hx] at h
      obtain ⟨hl, hu⟩ : { x with status := s } :: t = l ∧ { x with status := s } = u := by
        simpa using h
      subst hl; subst hu
      refine ⟨rfl, ?_⟩
      intro j inv inv' hj hj'
      match j with
      | 0 =>
        simp only [List.getElem?_cons_zero, Option.some_inj] at hj hj'
        right; rw [← hj, ← hj']
      | j + 1 =>
        simp only [List.getElem?_cons_succ] at hj hj'
        left; rw [hj] at hj'; exact (Option.some_inj.mp hj').symm
    · rw [markWithStatus, if_neg hx] at h
      cases hm : markWithStatus s id t with
      | error e => rw [hm] at h; simp at h
      | ok p =>
        rw [hm] at h
        obtain ⟨l', u'⟩ := p
        obtain ⟨hl, hu⟩ : x :: l' = l ∧ u' = u := by simpa using h
        subst hl; subst hu
        obtain ⟨hus, hpt⟩ := ih l' hm
        refine ⟨hus, ?_⟩
        intro j inv inv' hj hj'
        match j with
        | 0 =>
          simp only [List.getElem?_cons_zero, Option.some_inj] at hj hj'
          left; rw [← hj, ← hj']
        | j + 1 =>
          simp only [List.getElem?_cons_succ] at hj hj'
          exact hpt j inv inv' hj hj'

/-- A successful `updateGo` run returns the rebuilt version of the first
invoice carrying the requested id. -/
lemma updateGo_ok (input : InvoiceInput) (client : Client)
    (itemIds : Nat → String) (id : String) (invs l : List Invoice) (u : Invoice)
    (h : updateGo input client itemIds id invs = .ok (l, u)) :
    ∃ (j : Nat) (inv : Invoice), invs[j]? = some inv ∧ inv.id = id ∧
      u = updateBuild input client itemIds inv := by
  induction invs generalizing l with
  | nil => simp [updateGo] at h
  | cons x t ih =>
    by_cases hx : x.id = id
    · rw [updateGo, if_pos hx] at h
      obtain ⟨hl, hu⟩ : updateBuild input client itemIds x :: t = l
          ∧ updateBuild input client itemIds x = u := by simpa using h
      exact ⟨0, x, by simp, hx, hu.symm⟩
    · rw [updateGo, if_neg hx] at h
      cases hm : updateGo input client itemIds id t with
      | error e => rw [hm] at h; simp at h
      | ok p =>
        rw [hm] at h
        obtain ⟨l', u'⟩ := p
        obtain ⟨hl, hu⟩ : x :: l' = l ∧ u' = u := by simpa using h
        subst hu
        obtain ⟨j, inv, hj, hid, hbuild⟩ := ih l' hm
        exact ⟨j + 1, inv, by simpa using hj, hid, hbuild⟩

/-- A successful `updateInvoiceL` run went through `updateGo` with the
resolved client. -/
lemma updateInvoiceL_ok (id : String) (input : InvoiceInput)
    (clients : List Client) (itemIds : Nat → String) (invs l : List Invoice)
    (u : Invoice) (h : updateInvoiceL id input clients itemIds invs = .ok (l, u)) :
    ∃ client : Client, updateGo input client itemIds id invs = .ok (l, u) := by
  rw [updateInvoiceL] at h
  split_ifs at h
  cases hf : clients.find? (fun c => c.id == input.clientId) with
  | none => rw [hf] at h; simp at h
  | some client => rw [hf] at h; exact ⟨client, h⟩

/-- The invoice input used to revert a sent invoice to draft. -/
def draftingInput : InvoiceInput :=
  { clientId := "c1", issueDate := "2026-01-05", dueDate := "2026-02-05",
    lineItems := [{ description := "Work", quantity := 1, rate := 100 }],
    notes := none, status := some .draft }

/-- C6 (counterexample): `update` invoked with an input whose `status` is
`draft` on the stored `sent` invoice `witInvoiceSent` succeeds and yields an
invoice with the same id whose status is `draft` — a non-draft invoice is
reverted to draft by a repository operation. -/
theorem update_reverts_sent_to_draft :
    witInvoiceSent.status = .sent ∧
    Option.map Invoice.status (Option.map Prod.snd
      (updateInvoiceL "i1" draftingInput [witClient] (fun _ => "li2")
        [witInvoiceSent]).toOption) = some .draft ∧
    Option.map Invoice.id (Option.map Prod.snd
      (updateInvoiceL "i1" draftingInput [witClient] (fun _ => "li2")
        [witInvoiceSent]).toOption) = some witInvoiceSent.id := by
  exact ⟨rfl, rfl, rfl⟩

/-- C6 (amended): `markAsPaid`, `markAsSent` and `checkOverdue` never yield a
`draft` record for an invoice that was not `draft`, and `update` preserves a
non-draft status whenever the input omits `status` — but `update` with an
explicit input status (in particular `draft`) overwrites the stored status,
so it can revert to `draft`; `paid` is preserved by `markAsPaid` and by
`checkOverdue` (which leaves `paid` invoices entirely unchanged), while
`markAsSent` and `update` with an explicit different status do transition an
invoice out of `paid`. -/
theorem status_machine_amended :
    (∀ (id : String) (invs l : List Invoice) (u : Invoice),
      markAsPaidL id invs = .ok (l, u) →
      u.status = .paid ∧
      ∀ (j : Nat) (inv inv' : Invoice), invs[j]? = some inv → l[j]? = some inv' →
        (inv.status ≠ .draft → inv'.status ≠ .draft) ∧
        (inv.status = .paid → inv'.status = .paid)) ∧
    (∀ (id : String) (invs l : List Invoice) (u : Invoice),
      markAsSentL id invs = .ok (l, u) →
      u.status = .sent ∧
      ∀ (j : Nat) (inv inv' : Invoice), invs[j]? = some inv → l[j]? = some inv' →
        (inv.status ≠ .draft → inv'.status ≠ .draft)) ∧
    (∀ (today : String) (invs : List Invoice) (j : Nat) (inv inv' : Invoice),
      invs[j]? = some inv → (checkOverdue today invs)[j]? = some inv' →
      (inv.status ≠ .draft → inv'.status ≠ .draft) ∧
      (inv.status = .paid → inv' = inv)) ∧
    (∀ (id : String) (input : InvoiceInput) (clients : List Client)
        (itemIds : Nat → String) (invs l : List Invoice) (u : Invoice),
      updateInvoiceL id input clients itemIds invs = .ok (l, u) →
      (∀ s : InvoiceStatus, input.status = some s → u.status = s) ∧
      (input.status = none →
        ∃ (j : Nat) (inv : Invoice), invs[j]? = some inv ∧ inv.id = id ∧
          u.status = inv.status)) := by
  refine ⟨?_, ?_, ?_, ?_⟩
  · intro id invs l u h
    obtain ⟨hu, hpt⟩ := markWithStatus_pointwise .paid id invs l u h
    refine ⟨hu, ?_⟩
    intro j inv inv' hj hj'
    rcases hpt j inv inv' hj hj' with heq | heq <;> subst heq
    · exact ⟨fun hd => hd, fun hp => hp⟩
    · exact ⟨fun _ => by simp, fun _ => rfl⟩
  · intro id invs l u h
    obtain ⟨hu, hpt⟩ := markWithStatus_pointwise .sent id invs l u h
    refine ⟨hu, ?_⟩
    intro j inv inv' hj hj'
    rcases hpt j inv inv' hj hj' with heq | heq <;> subst heq
    · exact fun hd => hd
    · exact fun _ => by simp
  · intro today invs j inv inv' hj hj'
    have hmap := checkOverdue_pointwise today invs j inv hj
    rw [hj'] at hmap
    have hinv' : inv' = if inv.status = .sent ∧ inv.dueDate < today
        then { inv with status := .overdue } else inv := by
      exact Option.some_inj.mp hmap
    by_cases hc : inv.status = .sent ∧ inv.dueDate < today
    · rw [if_pos hc] at hinv'
      subst hinv'
      exact ⟨fun _ => by simp, fun hp => absurd (hp ▸ hc.1) (by simp)⟩
    · rw [if_neg hc] at hinv'
      subst hinv'
      exact ⟨fun hd => hd, fun _ => rfl⟩
  · intro id input clients itemIds invs l u h
    obtain ⟨client, hgo⟩ := updateInvoiceL_ok id input clients itemIds invs l u h
    obtain ⟨j, inv, hj, hid, hbuild⟩ := updateGo_ok input client itemIds id invs l u hgo
    constructor
    · intro s hs
      rw [hbuild]
      show (input.status.getD inv.status) = s
      rw [hs]; rfl
    · intro hnone
      refine ⟨j, inv, hj, hid, ?_⟩
      rw [hbuild]
      show (input.status.getD inv.status) = inv.status
      rw [hnone]; rfl

/-- C6 (witness): the `markAsPaid` clause instantiated on the concrete
collection `[witInvoiceSent]`. -/
theorem status_machine_amended_witness :
    ({ witInvoiceSent with status := .paid } : Invoice).status ≠ .draft :=
  ((status_machine_amended.1 "i1" [witInvoiceSent]
      [{ witInvoiceSent with status := .paid }] { witInvoiceSent with status := .paid }
      rfl).2 0 witInvoiceSent { witInvoiceSent with status := .paid }
      rfl rfl).1 (by decide)

/-- The `generateInvoiceNumber` touches only the sequence row. -/
lemma sbGen_invoices (st : SbStore) :
    (sbGenerateInvoiceNumber st).2.invoices = st.invoices := by
  rw [sbGenerateInvoiceNumber]
  cases st.lastNumber <;> rfl

/-- The `generateInvoiceNumber` touches only the sequence row. -/
lemma sbGen_lineItems (st : SbStore) :
    (sbGenerateInvoiceNumber st).2.lineItems = st.lineItems := by
  rw [sbGenerateInvoiceNumber]
  cases st.lastNumber <;> rfl

/-- The `generateInvoiceNumber` increments the sequence row (creating it at 1). -/
lemma sbGen_lastNumber (st : SbStore) :
    (sbGenerateInvoiceNumber st).2.lastNumber = some (st.lastNumber.getD 0 + 1) := by
  rw [sbGenerateInvoiceNumber]
  cases st.lastNumber <;> rfl

/-- A valid invoice input for the Supabase `create`. -/
def sbInput : InvoiceInput :=
  { clientId := "c1", issueDate := "2026-01-01", dueDate := "2026-01-31",
    lineItems := [{ description := "Work", quantity := 1, rate := 100 }],
    notes := none, status := none }

/-- A Supabase store whose sequence row is at 5. -/
def sbStore0 : SbStore := { lastNumber := some 5, invoices := [], lineItems := [] }

/-- C8 (counterexample): a `create` whose line-item insert fails rolls the
invoice row back and throws, but the `invoice_sequences` row — one of the
persisted collections — remains incremented: the store after the failed call
differs from the store before it. -/
theorem sbCreate_failure_leaves_sequence_incremented :
    (sbCreate true "i9" sbInput sbStore0).1
      = .error "A database error occurred. Please try again." ∧
    sbStore0.lastNumber = some 5 ∧
    (sbCreate true "i9" sbInput sbStore0).2.lastNumber = some 6 ∧
    (sbCreate true "i9" sbInput sbStore0).2 ≠ sbStore0 := by
  refine ⟨rfl, rfl, rfl, ?_⟩
  intro hcontra
  have h : (sbCreate true "i9" sbInput sbStore0).2.lastNumber = sbStore0.lastNumber := by
    rw [hcontra]
  rw [show (sbCreate true "i9" sbInput sbStore0).2.lastNumber = some 6 from rfl] at h
  simp [sbStore0] at h

/-- C8 (amended): every backend repository operation that fails by throwing
(validation failure or unknown id in `create`/`update`/`delete`/`markAsPaid`/
`markAsSent`/`duplicate`) leaves the persisted collections exactly as they
were; a Supabase `create` whose line-item insert fails restores the invoice
and line-item collections via the compensating delete (given a fresh invoice
id), but the invoice-number sequence row stays incremented — that one
partial write survives. -/
theorem repo_failure_state_amended :
    (∀ (today : String) (year : Nat) (newId : String) (itemIds : Nat → String)
        (input : InvoiceInput) (clients : List Client) (st : Store) (e : String),
      (createInvoice today year newId itemIds input clients st).1 = .error e →
      (createInvoice today year newId itemIds input clients st).2 = st) ∧
    (∀ (id : String) (input : InvoiceInput) (clients : List Client)
        (itemIds : Nat → String) (st : Store) (e : String),
      (updateInvoiceS id input clients itemIds st).1 = .error e →
      (updateInvoiceS id input clients itemIds st).2 = st) ∧
    (∀ (id : String) (st : Store) (e : String),
      (deleteInvoiceS id st).1 = .error e → (deleteInvoiceS id st).2 = st) ∧
    (∀ (id : String) (st : Store) (e : String),
      (markAsPaidS id st).1 = .error e → (markAsPaidS id st).2 = st) ∧
    (∀ (id : String) (st : Store) (e : String),
      (markAsSentS id st).1 = .error e → (markAsSentS id st).2 = st) ∧
    (∀ (today : String) (year : Nat) (newId : String) (itemIds : Nat → String)
        (id : String) (clients : List Client) (st : Store) (e : String),
      (duplicateS today year newId itemIds id clients st).1 = .error e →
      (duplicateS today year newId itemIds id clients st).2 = st) ∧
    (∀ (newId : String) (input : InvoiceInput) (st : SbStore),
      input.lineItems ≠ [] → newId ∉ st.invoices.map SbInvoice.id →
      (sbCreate true newId input st).1
          = .error "A database error occurred. Please try again." ∧
      (sbCreate true newId input st).2.invoices = st.invoices ∧
      (sbCreate true newId input st).2.lineItems = st.lineItems ∧
      (sbCreate true newId input st).2.lastNumber
          = some (st.lastNumber.getD 0 + 1)) := by
  refine ⟨?_, ?_, ?_, ?_, ?_, ?_, ?_⟩
  · intro today year newId itemIds input clients st e h
    have hcases : (createInvoice today year newId itemIds input clients st).2 = st
        ∨ ∃ v, (createInvoice today year newId itemIds input clients st).1 = .ok v := by
      rw [createInvoice]
      by_cases hv : (invoiceValidate input).valid = false
      · rw [if_pos hv]; exact Or.inl rfl
      · rw [if_neg hv]
        cases hf : clients.find? (fun c => c.id == input.clientId) with
        | none => exact Or.inl rfl
        | some client => exact Or.inr ⟨_, rfl⟩
    rcases hcases with h2 | ⟨v, hok⟩
    · exact h2
    · rw [hok] at h; exact absurd h (by simp)
  · intro id input clients itemIds st e h
    have hcases : (updateInvoiceS id input clients itemIds st).2 = st
        ∨ ∃ v, (updateInvoiceS id input clients itemIds st).1 = .ok v := by
      rw [updateInvoiceS]
      cases hm : updateInvoiceL id input clients itemIds st.invoices with
      | error e' => exact Or.inl rfl
      | ok p => obtain ⟨l, v⟩ := p; exact Or.inr ⟨v, rfl⟩
    rcases hcases with h2 | ⟨v, hok⟩
    · exact h2
    · rw [hok] at h; exact absurd h (by simp)
  · intro id st e h
    have hcases : (deleteInvoiceS id st).2 = st
        ∨ ∃ v, (deleteInvoiceS id st).1 = .ok v := by
      rw [deleteInvoiceS]
      cases hm : deleteInvoiceL id st.invoices with
      | error e' => exact Or.inl rfl
      | ok l => exact Or.inr ⟨(), rfl⟩
    rcases hcases with h2 | ⟨v, hok⟩
    · exact h2
    · rw [hok] at h; exact absurd h (by simp)
  · intro id st e h
    have hcases : (markAsPaidS id st).2 = st
        ∨ ∃ v, (markAsPaidS id st).1 = .ok v := by
      rw [markAsPaidS]
      cases hm : markAsPaidL id st.invoices with
      | error e' => exact Or.inl rfl
      | ok p => obtain ⟨l, v⟩ := p; exact Or.inr ⟨v, rfl⟩
    rcases hcases with h2 | ⟨v, hok⟩
    · exact h2
    · rw [hok] at h; exact absurd h (by simp)
  · intro id st e h
    have hcases : (markAsSentS id st).2 = st
        ∨ ∃ v, (markAsSentS id st).1 = .ok v := by
      rw [markAsSentS]
      cases hm : markAsSentL id st.invoices with
      | error e' => exact Or.inl rfl
      | ok p => obtain ⟨l, v⟩ := p; exact Or.inr ⟨v, rfl⟩
    rcases hcases with h2 | ⟨v, hok⟩
    · exact h2
    · rw [hok] at h; exact absurd h (by simp)
  · intro today year newId itemIds id clients st e h
    have hcases : (duplicateS today year newId itemIds id clients st).2 = st
        ∨ ∃ v, (duplicateS today year newId itemIds id clients st).1 = .ok v := by
      rw [duplicateS]
      cases hf : st.invoices.find? (fun inv => inv.id == id) with
      | none => exact Or.inl rfl
      | some original =>
        dsimp only
        cases hc : clients.find? (fun c => c.id == original.clientId) with
        | none => exact Or.inl rfl
        | some client => exact Or.inr ⟨_, rfl⟩
    rcases hcases with h2 | ⟨v, hok⟩
    · exact h2
    · rw [hok] at h; exact absurd h (by simp)
  · intro newId input st hne hfresh
    have hemp : input.lineItems.isEmpty = false := by
      simp [List.isEmpty_eq_false, hne]
    have heq : sbCreate true newId input st
        = (.error "A database error occurred. Please try again.",
           { (sbGenerateInvoiceNumber st).2 with
             invoices := (((sbGenerateInvoiceNumber st).2.invoices
                 ++ [sbRow newId input (sbGenerateInvoiceNumber st).1]).filter
                   (fun r => r.id ≠ newId)) }) := by
      rw [sbCreate]
      simp [hemp]
    refine ⟨by rw [heq], ?_, ?_, ?_⟩
    · rw [heq]
      show (((sbGenerateInvoiceNumber st).2.invoices
          ++ [sbRow newId input (sbGenerateInvoiceNumber st).1]).filter
            (fun r => r.id ≠ newId)) = st.invoices
      rw [List.filter_append, sbGen_invoices]
      have h1 : st.invoices.filter (fun r => r.id ≠ newId) = st.invoices := by
        apply List.filter_eq_self.mpr
        intro a ha
        have hne' : a.id ≠ newId := by
          intro hEq
          exact hfresh (hEq ▸ List.mem_map_of_mem SbInvoice.id ha)
        simp [hne']
      have h2 : ([sbRow newId input (sbGenerateInvoiceNumber st).1].filter
          (fun r => r.id ≠ newId)) = [] := by
        simp [List.filter, sbRow]
      rw [h1, h2, List.append_nil]
    · rw [heq]
      show (sbGenerateInvoiceNumber st).2.lineItems = st.lineItems
      exact sbGen_lineItems st
    · rw [heq]
      show (sbGenerateInvoiceNumber st).2.lastNumber = some (st.lastNumber.getD 0 + 1)
      exact sbGen_lastNumber st

/-- C8 (witness): the amended theorem instantiated — an `update` of an
unknown id leaves the concrete store unchanged, and the concrete failing
Supabase `create` restores invoices and line items while the sequence stays
bumped. -/
theorem repo_failure_state_amended_witness :
    (updateInvoiceS "zz" draftingInput [witClient] (fun _ => "li")
        { clients := [witClient], invoices := [witInvoiceSent], counter := none }).2
      = { clients := [witClient], invoices := [witInvoiceSent], counter := none } ∧
    ((sbCreate true "i9" sbInput sbStore0).1
        = .error "A database error occurred. Please try again." ∧
      (sbCreate true "i9" sbInput sbStore0).2.invoices = sbStore0.invoices ∧
      (sbCreate true "i9" sbInput sbStore0).2.lineItems = sbStore0.lineItems ∧
      (sbCreate true "i9" sbInput sbStore0).2.lastNumber
        = some (sbStore0.lastNumber.getD 0 + 1)) :=
  ⟨repo_failure_state_amended.2.1 "zz" draftingInput [witClient] (fun _ => "li")
      { clients := [witClient], invoices := [witInvoiceSent], counter := none }
      ("Invoice with ID " ++ "zz" ++ " not found") rfl,
   repo_failure_state_amended.2.2.2.2.2.2 "i9" sbInput sbStore0
      (by decide) (by decide)⟩

end Invoicey
